import Mathlib

set_option linter.unusedVariables false

namespace WhosMost

/- Data model, from src/frontend/src/types.ts -/

/-- A prompt: integer id plus display text (types.ts, Prompt). -/
structure Prompt where
  id : Nat
  text : String
deriving Repr, DecidableEq

/-- A prompt pack: a title plus an ordered sequence of prompts (types.ts, PromptPack). -/
structure PromptPack where
  title : String
  prompts : List Prompt
deriving Repr, DecidableEq

/-- A player as carried in protocol messages (types.ts, PlayerInfo). -/
structure PlayerInfo where
  nickname : String
  avatar : String
deriving Repr, DecidableEq

/-- A single vote: voter nickname and target nickname (types.ts, Vote). -/
structure Vote where
  voter : String
  target : String
deriving Repr, DecidableEq

/-- One podium line of a round result (types.ts, PodiumEntry). -/
structure PodiumEntry where
  nickname : String
  avatar : String
  vote_count : Nat
  rank : Nat
deriving Repr, DecidableEq

/-- The result of one closed round (types.ts, RoundResult); the prediction-point
record is modelled as an association list. -/
structure RoundResult where
  prompt : Prompt
  votes : List Vote
  podium : List PodiumEntry
  majority_winner : String
  prediction_points : List (String × Nat)
deriving Repr, DecidableEq

/-- One leaderboard line (types.ts, LeaderboardEntry). -/
structure LeaderboardEntry where
  nickname : String
  avatar : String
  score : Nat
  rank : Nat
  rank_change : Int
deriving Repr, DecidableEq

/-- An end-of-game award (types.ts, Superlative). -/
structure Superlative where
  title : String
  winner : String
  avatar : String
  detail : String
deriving Repr, DecidableEq

/-- Client-to-server messages of the connection protocol. -/
inductive ClientMsg
  | JOIN (nickname avatar : String)
  | VOTE (target_nickname : String)
  | START_GAME
  | NEXT_QUESTION
  | SKIP_QUESTION
  | END_GAME
  | RESET_ROOM
deriving Repr, DecidableEq

/- Player client, from PlayerPage (src/unnamed/part_002) -/

/-- The player page screen states (PlayerPage, type PlayerState). -/
inductive PlayerState
  | JOIN
  | LOBBY
  | QUESTION
  | VOTED
  | REVEAL
  | PODIUM
  | RECONNECTING
deriving Repr, DecidableEq

/-- The mutable state of one player client: the React state hooks of PlayerPage
plus the kicked ref and whether a session is saved in sessionStorage. -/
structure PlayerClient where
  state : PlayerState
  roomCode : String
  nickname : String
  avatar : String
  error : String
  lobbyPlayers : List PlayerInfo
  currentPromptText : String
  questionNumber : Nat
  totalQuestions : Nat
  timerSeconds : Nat
  timeRemaining : Nat
  players : List PlayerInfo
  selectedTarget : Option String
  hasVoted : Bool
  roundResult : Option RoundResult
  myPredictionPoints : Nat
  leaderboard : List LeaderboardEntry
  superlatives : List Superlative
  savedSession : Bool
  kicked : Bool
deriving Repr, DecidableEq

/-- Server-to-player messages as parsed by the PlayerPage onmessage handler.
Fields the handler reads only conditionally are Option-valued. -/
inductive ServerMsg
  | ERROR (message : String)
  | KICKED
  | JOINED_ROOM
  | RECONNECTED (rstate : String) (question_number total_questions : Nat)
      (players : Option (List PlayerInfo)) (promptText : String)
      (timer_seconds : Nat) (time_remaining : Option Nat)
  | PLAYER_JOINED (players : Option (List PlayerInfo))
  | PLAYER_LEFT (players : Option (List PlayerInfo))
  | GAME_STARTING
  | QUESTION (promptText : String) (question_number total_questions timer_seconds : Nat)
      (players : Option (List PlayerInfo))
  | TIMER (remaining : Nat)
  | VOTE_COUNT (voted : Nat)
  | ROUND_RESULT (result : RoundResult)
  | PODIUM (leaderboard : List LeaderboardEntry) (superlatives : List Superlative)
  | ROOM_RESET (players : Option (List PlayerInfo))
deriving Repr, DecidableEq

/-- The PlayerPage websocket onmessage handler (part_002 lines 81-195), branch by
branch: each protocol message updates exactly the state hooks the source sets. -/
def playerHandleMessage (msg : ServerMsg) (c : PlayerClient) : PlayerClient :=
  match msg with
  | .ERROR m =>
      if m = "Room not found" then
        { c with savedSession := false, state := .JOIN, error := m }
      else
        { c with error := m }
  | .KICKED =>
      { c with kicked := true, state := .JOIN, error := "You joined from another device" }
  | .JOINED_ROOM =>
      { c with savedSession := true, state := .LOBBY }
  | .RECONNECTED rstate qn tq pls ptext ts tr =>
      let c1 := { c with savedSession := true, questionNumber := qn, totalQuestions := tq,
                         players := pls.getD c.players }
      if rstate = "LOBBY" then
        { c1 with state := .LOBBY }
      else if rstate = "QUESTION" then
        { c1 with currentPromptText := ptext,
                  timerSeconds := if ts = 0 then 60 else ts,
                  timeRemaining := tr.getD ts,
                  selectedTarget := none, hasVoted := false, state := .QUESTION }
      else
        { c1 with state := .VOTED }
  | .PLAYER_JOINED pls =>
      match pls with
      | some ps => { c with lobbyPlayers := ps, players := ps }
      | none => c
  | .PLAYER_LEFT pls =>
      match pls with
      | some ps => { c with lobbyPlayers := ps, players := ps }
      | none => c
  | .GAME_STARTING => c
  | .QUESTION ptext qn tq ts pls =>
      { c with currentPromptText := ptext, questionNumber := qn, totalQuestions := tq,
               timerSeconds := ts, timeRemaining := ts,
               players := pls.getD c.players,
               selectedTarget := none, hasVoted := false, roundResult := none,
               state := .QUESTION }
  | .TIMER remaining => { c with timeRemaining := remaining }
  | .VOTE_COUNT _ => c
  | .ROUND_RESULT res =>
      { c with roundResult := some res,
               myPredictionPoints := (res.prediction_points.lookup c.nickname).getD 0,
               state := .REVEAL }
  | .PODIUM lb sl =>
      { c with leaderboard := lb, superlatives := sl, state := .PODIUM }
  | .ROOM_RESET pls =>
      let c1 := { c with questionNumber := 0, totalQuestions := 0, selectedTarget := none,
                         hasVoted := false, roundResult := none, leaderboard := [],
                         superlatives := [], myPredictionPoints := 0 }
      let c2 := match pls with
        | some ps => { c1 with lobbyPlayers := ps, players := ps }
        | none => c1
      { c2 with state := .LOBBY }

/-- The PlayerPage submitVote action (part_002 lines 211-219): guarded by
hasVoted; returns the new client state and the VOTE message sent, if any. -/
def playerSubmitVote (target : String) (c : PlayerClient) : PlayerClient × Option ClientMsg :=
  if c.hasVoted then (c, none)
  else ({ c with selectedTarget := some target, hasVoted := true, state := .VOTED },
        some (.VOTE target))

/-- The PlayerPage websocket onclose handler (part_002 lines 198-208): returns
the new client state and whether a rejoin was scheduled. -/
def playerOnClose (c : PlayerClient) : PlayerClient × Bool :=
  if c.kicked then
    ({ c with kicked := false }, false)
  else if c.state ≠ .JOIN ∧ c.state ≠ .PODIUM then
    ({ c with state := .RECONNECTING }, true)
  else if c.state = .JOIN then
    ({ c with error := "Room not found" }, false)
  else
    (c, false)

/-- The messages whose PlayerPage handler sets hasVoted back to false: a new
QUESTION, a RECONNECTED resynchronising into the QUESTION state, or ROOM_RESET. -/
def clearsHasVoted : ServerMsg → Bool
  | .QUESTION _ _ _ _ _ => true
  | .RECONNECTED rstate _ _ _ _ _ _ => rstate == "QUESTION"
  | .ROOM_RESET _ => true
  | _ => false

/- Organizer client, from OrganizerPage (src/unnamed/part_001) -/

/-- The organizer page screen states (OrganizerPage, type OrganizerState). -/
inductive OrganizerState
  | PROMPT
  | LOADING
  | REVIEW
  | ROOM
  | QUESTION
  | REVEAL
  | PODIUM
deriving Repr, DecidableEq

/-- The mutable state of the organizer client: the React state hooks of
OrganizerPage (roomCode mirrors the roomCodeRef kept in sync by an effect). -/
structure OrganizerClient where
  state : OrganizerState
  roomCode : String
  playerCount : Nat
  players : List PlayerInfo
  currentPromptText : String
  questionNumber : Nat
  totalQuestions : Nat
  timerSeconds : Nat
  timeRemaining : Nat
  votedCount : Nat
  roundResult : Option RoundResult
  leaderboard : List LeaderboardEntry
  superlatives : List Superlative
  roundHistory : List RoundResult
  selectedTarget : Option String
  hasVoted : Bool
  autoAdvance : Bool
  autoCountdown : Nat
deriving Repr, DecidableEq

/-- Server-to-organizer messages as parsed by handleWsMessage in OrganizerPage. -/
inductive OrgMsg
  | PLAYER_JOINED (player_count : Nat) (players : Option (List PlayerInfo))
  | PLAYER_LEFT (player_count : Nat) (players : Option (List PlayerInfo))
  | GAME_STARTING
  | QUESTION (promptText : String) (question_number total_questions timer_seconds : Nat)
  | TIMER (remaining : Nat)
  | VOTE_COUNT (voted : Nat)
  | ROUND_RESULT (result : RoundResult)
  | PODIUM (leaderboard : List LeaderboardEntry) (superlatives : List Superlative)
      (round_history : List RoundResult)
  | ROOM_RESET (player_count : Nat) (players : Option (List PlayerInfo))
  | ORGANIZER_RECONNECTED (room_code : String) (player_count : Nat)
      (players : Option (List PlayerInfo)) (total_questions timer_seconds : Nat)
      (rstate : String) (question_number : Nat) (time_remaining : Option Nat)
      (voted_count : Option Nat) (promptText : String)
      (leaderboard : List LeaderboardEntry) (superlatives : List Superlative)
  | ERROR (message : String)
deriving Repr, DecidableEq

/-- The OrganizerPage handleWsMessage handler (part_001 lines 93-184), branch by
branch; on a Room-not-found or invalid-token ERROR it clears the stored room
code and falls back to the PROMPT screen. -/
def orgHandleMessage (msg : OrgMsg) (c : OrganizerClient) : OrganizerClient :=
  match msg with
  | .PLAYER_JOINED pc pls =>
      { c with playerCount := pc, players := pls.getD [] }
  | .PLAYER_LEFT pc pls =>
      { c with playerCount := pc, players := pls.getD [] }
  | .GAME_STARTING => c
  | .QUESTION ptext qn tq ts =>
      { c with currentPromptText := ptext, questionNumber := qn, totalQuestions := tq,
               timeRemaining := ts, votedCount := 0, selectedTarget := none,
               hasVoted := false, roundResult := none, state := .QUESTION }
  | .TIMER remaining => { c with timeRemaining := remaining }
  | .VOTE_COUNT v => { c with votedCount := v }
  | .ROUND_RESULT res =>
      { c with roundResult := some res, state := .REVEAL }
  | .PODIUM lb sl rh =>
      { c with leaderboard := lb, superlatives := sl, roundHistory := rh, state := .PODIUM }
  | .ROOM_RESET pc pls =>
      { c with playerCount := pc, players := pls.getD [], state := .ROOM }
  | .ORGANIZER_RECONNECTED rc pc pls tq ts rstate qn tr vc ptext lb sl =>
      let c1 := { c with roomCode := rc, playerCount := pc, players := pls.getD [],
                         totalQuestions := tq,
                         timerSeconds := if ts = 0 then 60 else ts }
      if rstate = "LOBBY" then
        { c1 with state := .ROOM }
      else if rstate = "QUESTION" then
        { c1 with questionNumber := qn, timeRemaining := tr.getD ts,
                  votedCount := vc.getD 0, currentPromptText := ptext,
                  state := .QUESTION }
      else if rstate = "REVEAL" then
        { c1 with state := .REVEAL }
      else if rstate = "PODIUM" then
        { c1 with leaderboard := lb, superlatives := sl, state := .PODIUM }
      else c1
  | .ERROR m =>
      if m = "Room not found" ∨ m = "Invalid organizer token" then
        { c with roomCode := "", state := .PROMPT }
      else c

/-- The OrganizerPage connectWs onclose handler (part_001 lines 197-203): a
reconnect is scheduled exactly when a room code is stored and the screen state
is one of the active states. -/
def orgCloseSchedulesReconnect (c : OrganizerClient) : Bool :=
  decide (c.roomCode ≠ "" ∧
    (c.state = .ROOM ∨ c.state = .QUESTION ∨ c.state = .REVEAL ∨ c.state = .PODIUM))

/-- The OrganizerPage submitVote action (part_001 lines 302-309): same hasVoted
guard as the player client; the organizer stays on its current screen. -/
def orgSubmitVote (target : String) (c : OrganizerClient) : OrganizerClient × Option ClientMsg :=
  if c.hasVoted then (c, none)
  else ({ c with selectedTarget := some target, hasVoted := true }, some (.VOTE target))

/-- The OrganizerPage playAgain action (part_001 lines 311-320): clears the
game-progress hooks and returns to the PROMPT screen. -/
def orgPlayAgain (c : OrganizerClient) : OrganizerClient :=
  { c with questionNumber := 0, leaderboard := [], superlatives := [], roundHistory := [],
           roundResult := none, selectedTarget := none, hasVoted := false,
           state := .PROMPT }

/-- The OrganizerPage startGame action (part_001 lines 284-288): sends
START_GAME followed by NEXT_QUESTION. -/
def startGameMessages : List ClientMsg := [.START_GAME, .NEXT_QUESTION]

/- Lobby screen, from LobbyScreen (src/unnamed/part_003) -/

/-- The minimum player count hardcoded in LobbyScreen (part_003 line 29). -/
def minPlayers : Nat := 3

/-- LobbyScreen canStart (part_003 line 30). -/
def canStart (playerCount : Nat) : Bool := decide (minPlayers ≤ playerCount)

/-- Pressing the Start control on the lobby screen: the button is disabled when
canStart is false (part_003 lines 95-101), so no message is emitted below the
minimum; when enabled it fires onStartGame, which sends startGameMessages. -/
def lobbyStartClick (playerCount : Nat) : List ClientMsg :=
  if canStart playerCount then startGameMessages else []

/- Review screen editing, from ReviewScreen.tsx -/

/-- The ids of the prompts of a pack, in order. -/
def promptIds (pack : PromptPack) : List Nat := pack.prompts.map Prompt.id

/-- The JS String.prototype.trim used by ReviewScreen: strip leading and
trailing whitespace (an executable model over the character list). -/
def strTrim (s : String) : String :=
  ⟨((s.data.dropWhile Char.isWhitespace).reverse.dropWhile Char.isWhitespace).reverse⟩

/-- ReviewScreen saveEdit (ReviewScreen.tsx lines 44-53): with a non-blank edit
text, replaces the text of the prompt whose id equals editingId. -/
def saveEdit (editingId : Option Nat) (editText : String) (pack : PromptPack) : PromptPack :=
  if strTrim editText = "" then pack
  else
    let upd := fun (p : Prompt) =>
      if some p.id = editingId then { p with text := strTrim editText } else p
    { pack with prompts := pack.prompts.map upd }

/-- ReviewScreen deletePrompt (ReviewScreen.tsx lines 55-62): refuses to shrink
a pack to fewer than three prompts, otherwise filters out the given id. -/
def deletePrompt (id : Nat) (pack : PromptPack) : PromptPack :=
  if pack.prompts.length ≤ 3 then pack
  else { pack with prompts := pack.prompts.filter fun p => decide (p.id ≠ id) }

/-- ReviewScreen addPrompt computes Math.max of 0 and all existing prompt ids
(ReviewScreen.tsx line 66). -/
def maxPromptId (pack : PromptPack) : Nat :=
  (pack.prompts.map Prompt.id).foldl max 0

/-- ReviewScreen addPrompt (ReviewScreen.tsx lines 64-74): with a non-blank
text, appends a prompt with id maxPromptId + 1. -/
def addPrompt (newPromptText : String) (pack : PromptPack) : PromptPack :=
  if strTrim newPromptText = "" then pack
  else
    { pack with prompts := pack.prompts ++ [⟨maxPromptId pack + 1, strTrim newPromptText⟩] }

/- Reveal-screen podium rendering, shared by OrganizerPage (lines 460-470),
PlayerPage (lines 447-455) and SpectatorPage (lines 353-362) -/

/-- One of the three display slots of the round podium: an empty slot div or a
rendered entry. -/
inductive PodiumSlot
  | empty
  | filled (entry : PodiumEntry)
deriving Repr, DecidableEq

/-- The reveal screens render a missing entry (JS undefined coerced to null) as
an empty slot. -/
def slotOf : Option PodiumEntry → PodiumSlot
  | some e => .filled e
  | none => .empty

/-- The podium block of the reveal screens: take the first three podium entries
and lay them out in display order second, first, third. -/
def renderPodiumSlots (podium : List PodiumEntry) : List PodiumSlot :=
  let top3 := podium.take 3
  [slotOf (top3.get? 1), slotOf (top3.get? 0), slotOf (top3.get? 2)]

/- Auto-advance countdown, from the OrganizerPage effect (part_001 lines
322-350) and the REVEAL controls (lines 533-541) -/

/-- The auto-advance countdown state of the organizer REVEAL screen: the
autoCountdown hook, whether the setInterval handle is live, and counters of the
automatic and manual NEXT_QUESTION sends since this REVEAL began. -/
structure AutoState where
  countdown : Nat
  intervalActive : Bool
  autoSent : Nat
  manualSent : Nat
deriving Repr, DecidableEq

/-- The events that drive the auto-advance countdown within one REVEAL: an
interval tick; the effect re-running with the countdown disarmed (the screen
left REVEAL or auto-advance was switched off); the effect re-running with the
countdown armed (REVEAL with auto-advance on); and a manual Next press. -/
inductive AutoEvent
  | tick
  | effectOff
  | effectOn
  | manualNext
deriving Repr, DecidableEq

/-- One auto-advance transition. A tick on a live interval decrements the
countdown and, at one, clears the interval and sends the automatic
NEXT_QUESTION; disarming clears the interval and zeroes the countdown; arming
restarts at seven seconds; a manual Next clears the interval and sends a manual
NEXT_QUESTION. -/
def autoStep : AutoEvent → AutoState → AutoState
  | .tick, s =>
      if s.intervalActive then
        if s.countdown ≤ 1 then
          { s with countdown := 0, intervalActive := false, autoSent := s.autoSent + 1 }
        else
          { s with countdown := s.countdown - 1 }
      else s
  | .effectOff, s => { s with countdown := 0, intervalActive := false }
  | .effectOn, s => { s with countdown := 7, intervalActive := true }
  | .manualNext, s => { s with intervalActive := false, manualSent := s.manualSent + 1 }

/-- The auto-advance state right after entering REVEAL with auto-advance on:
the effect sets the countdown to seven and starts the interval. -/
def revealStart : AutoState := ⟨7, true, 0, 0⟩

/-- Run a sequence of auto-advance events from the start of a REVEAL. -/
def runAuto (es : List AutoEvent) : AutoState :=
  es.foldl (fun s e => autoStep e s) revealStart

/- Voting engine tally and podium. The backend Voting Engine is not part of the
frontend sources, so it is modelled from the specification. -/

/-- Modelled from the spec: the backend tally, the count of votes received per
target nickname (the backend Voting Engine round-close step 1 is not in the
frontend sources). -/
def countVotes (votes : List Vote) (nick : String) : Nat :=
  votes.countP (fun v => v.target == nick)

/-- A player together with the vote count received this round. -/
abbrev Tally := PlayerInfo × Nat

/-- Modelled from the spec: only players who received at least one vote enter
the podium; players are kept in stable join order. -/
def recipients (players : List PlayerInfo) (votes : List Vote) : List Tally :=
  (players.map (fun p => (p, countVotes votes p.nickname))).filter
    (fun t => decide (0 < t.2))

/-- Descending order on tallies: a precedes b when b has at most as many votes. -/
def tallyRel (a b : Tally) : Prop := b.2 ≤ a.2

instance : DecidableRel tallyRel := fun a b => Nat.decLe b.2 a.2

instance : IsTotal Tally tallyRel := ⟨fun a b => Nat.le_total b.2 a.2⟩

instance : IsTrans Tally tallyRel := ⟨fun _ _ _ hab hbc => Nat.le_trans hbc hab⟩

/-- Modelled from the spec: recipients sorted by descending vote count; a
stable sort keeps join order among ties. -/
def sortByCount (l : List Tally) : List Tally := l.insertionSort tallyRel

/-- Modelled from the spec: walk the sorted recipients assigning dense ranks,
keeping the rank of the previous entry when the vote counts tie and stepping it
by exactly one at each new distinct count. -/
def ranksGo : Nat → Option Nat → List Tally → List PodiumEntry
  | _, _, [] => []
  | r, prev, t :: rest =>
      let r2 := if prev = some t.2 then r else r + 1
      { nickname := t.1.nickname, avatar := t.1.avatar, vote_count := t.2, rank := r2 }
        :: ranksGo r2 (some t.2) rest

/-- Modelled from the spec: the podium of a round, built from the room players
in join order and the accepted votes of the round. -/
def buildPodium (players : List PlayerInfo) (votes : List Vote) : List PodiumEntry :=
  ranksGo 0 none (sortByCount (recipients players votes))

/-- Modelled from the spec: the majority winner is the top recipient after the
stable descending sort (first by join order in case of a top tie); no winner is
declared when nobody received a vote. -/
def majorityWinner (players : List PlayerInfo) (votes : List Vote) : Option String :=
  match sortByCount (recipients players votes) with
  | [] => none
  | t :: _ => some t.1.nickname

/-- Dense ranking as the spec words it: the rank of a count is one more than
the number of distinct strictly larger counts appearing on the podium. -/
def specRank (counts : List Nat) (c : Nat) : Nat :=
  (counts.dedup.filter (fun d => decide (c < d))).length + 1

/- Vote-breakdown visibility (C3). The server-side gating is modelled from the
spec; the per-role render conditions come from the frontend sources. -/

/-- The three connection roles of the protocol. -/
inductive Role
  | organizer
  | player
  | spectator
deriving Repr, DecidableEq

/-- Modelled from the spec: the vote list included in the ROUND_RESULT payload
sent to a connection (the backend broadcast code is not in the frontend
sources): players and spectators receive it only when show_votes is enabled;
the organizer always receives it. -/
def broadcastVotes (role : Role) (showVotes : Bool) (votes : List Vote) : List Vote :=
  match role with
  | .organizer => votes
  | .player => if showVotes then votes else []
  | .spectator => if showVotes then votes else []

/-- The organizer reveal screen renders the breakdown card only when showVotes
is on and the received vote list is non-empty (part_001 line 493). -/
def organizerRendersBreakdown (showVotes : Bool) (received : List Vote) : Bool :=
  showVotes && decide (0 < received.length)

/-- The player reveal screen renders the breakdown card whenever the received
vote list is non-empty (part_002 line 494). -/
def playerRendersBreakdown (received : List Vote) : Bool :=
  decide (0 < received.length)

/-- The spectator reveal screen renders the breakdown whenever the received
vote list is non-empty (SpectatorPage.tsx line 386). -/
def spectatorRendersBreakdown (received : List Vote) : Bool :=
  decide (0 < received.length)

/-- Whether a connection of the given role ends up displaying the breakdown:
the modelled broadcast composed with that role's render condition. -/
def seesBreakdown (role : Role) (showVotes : Bool) (votes : List Vote) : Bool :=
  match role with
  | .organizer => organizerRendersBreakdown showVotes (broadcastVotes .organizer showVotes votes)
  | .player => playerRendersBreakdown (broadcastVotes .player showVotes votes)
  | .spectator => spectatorRendersBreakdown (broadcastVotes .spectator showVotes votes)

/- Theorems -/

/-- Claim C1: once submitVote has run (setting hasVoted), every later
submitVote call in the same round returns without sending a VOTE message; a
first submitVote always leaves hasVoted set; the player handler clears
hasVoted only on a new QUESTION, a RECONNECTED into QUESTION, or a ROOM_RESET;
and the organizer submitVote has the same hasVoted guard. -/
theorem submitVote_at_most_once_per_round :
    (∀ (c : PlayerClient) (t : String), c.hasVoted = true →
        playerSubmitVote t c = (c, none))
    ∧ (∀ (c : PlayerClient) (t : String), (playerSubmitVote t c).1.hasVoted = true)
    ∧ (∀ (msg : ServerMsg) (c : PlayerClient), c.hasVoted = true →
        (playerHandleMessage msg c).hasVoted = false → clearsHasVoted msg = true)
    ∧ (∀ (c : OrganizerClient) (t : String), c.hasVoted = true →
        orgSubmitVote t c = (c, none)) := by
  refine ⟨?_, ?_, ?_, ?_⟩
  · intro c t h
    simp [playerSubmitVote, h]
  · intro c t
    by_cases h : c.hasVoted <;> simp [playerSubmitVote, h]
  · intro msg c h1 h2
    cases msg with
    | ERROR m =>
        simp only [playerHandleMessage] at h2
        split at h2 <;> simp_all
    | RECONNECTED rstate qn tq pls ptext ts tr =>
        simp only [playerHandleMessage] at h2
        split at h2
        · simp_all
        · split at h2
          · rename_i hq
            simp [clearsHasVoted, hq]
          · simp_all
    | PLAYER_JOINED pls =>
        cases pls <;> simp_all [playerHandleMessage]
    | PLAYER_LEFT pls =>
        cases pls <;> simp_all [playerHandleMessage]
    | QUESTION ptext qn tq ts pls =>
        simp [clearsHasVoted]
    | ROOM_RESET pls =>
        simp [clearsHasVoted]
    | _ =>
        simp_all [playerHandleMessage]
  · intro c t h
    simp [orgSubmitVote, h]

/-- A concrete player client that has already voted this round. -/
def votedClient : PlayerClient :=
  { state := .VOTED, roomCode := "ABCD", nickname := "Alex", avatar := "A", error := "",
    lobbyPlayers := [], currentPromptText := "who?", questionNumber := 1,
    totalQuestions := 3, timerSeconds := 30, timeRemaining := 10, players := [],
    selectedTarget := some "Sam", hasVoted := true, roundResult := none,
    myPredictionPoints := 0, leaderboard := [], superlatives := [],
    savedSession := true, kicked := false }

/-- A concrete organizer client that has already voted this round. -/
def votedOrganizer : OrganizerClient :=
  { state := .QUESTION, roomCode := "ABCD", playerCount := 3, players := [],
    currentPromptText := "who?", questionNumber := 1, totalQuestions := 3,
    timerSeconds := 30, timeRemaining := 10, votedCount := 1, roundResult := none,
    leaderboard := [], superlatives := [], roundHistory := [], selectedTarget := some "Sam",
    hasVoted := true, autoAdvance := true, autoCountdown := 0 }

/-- Witness for C1 at concrete clients that have voted. -/
theorem submitVote_at_most_once_per_round_witness :
    (votedClient.hasVoted = true ∧ playerSubmitVote "Jordan" votedClient = (votedClient, none))
    ∧ ((playerHandleMessage (.QUESTION "q" 2 3 30 none) votedClient).hasVoted = false →
        clearsHasVoted (.QUESTION "q" 2 3 30 none) = true)
    ∧ orgSubmitVote "Jordan" votedOrganizer = (votedOrganizer, none) :=
  ⟨⟨rfl, submitVote_at_most_once_per_round.1 votedClient "Jordan" rfl⟩,
   submitVote_at_most_once_per_round.2.2.1 (.QUESTION "q" 2 3 30 none) votedClient rfl,
   submitVote_at_most_once_per_round.2.2.2 votedOrganizer "Jordan" rfl⟩

/-- Claim C3, counterexample to the claim as stated: with show_votes disabled
and one vote cast, the organizer still receives the full vote list, yet the
organizer reveal screen does not render the breakdown — so the organizer does
not render it under an always-available rule. -/
theorem breakdown_organizer_counterexample :
    broadcastVotes .organizer false [⟨"Alex", "Jordan"⟩] = [⟨"Alex", "Jordan"⟩]
    ∧ seesBreakdown .organizer false [⟨"Alex", "Jordan"⟩] = false :=
  ⟨rfl, rfl⟩

/-- Claim C3 (amended): the breakdown reaches players and spectators only when
show_votes is on, the organizer always receives it, but every role — the
organizer included — displays it exactly when show_votes is on and at least one
vote exists. -/
theorem breakdown_visibility_by_role :
    ∀ (showVotes : Bool) (votes : List Vote),
      broadcastVotes .organizer showVotes votes = votes
      ∧ seesBreakdown .player showVotes votes = (showVotes && decide (0 < votes.length))
      ∧ seesBreakdown .spectator showVotes votes = (showVotes && decide (0 < votes.length))
      ∧ seesBreakdown .organizer showVotes votes = (showVotes && decide (0 < votes.length)) := by
  intro sv votes
  cases sv <;>
    simp [seesBreakdown, broadcastVotes, playerRendersBreakdown,
          spectatorRendersBreakdown, organizerRendersBreakdown]

/-- Claim C4: the lobby Start control emits START_GAME exactly when the player
count reaches the minimum, and below the minimum the lobby screen emits
nothing. -/
theorem start_game_requires_min_players :
    (∀ n : Nat, ClientMsg.START_GAME ∈ lobbyStartClick n ↔ minPlayers ≤ n)
    ∧ (∀ n : Nat, n < minPlayers → lobbyStartClick n = []) := by
  constructor
  · intro n
    by_cases h : minPlayers ≤ n <;>
      simp [lobbyStartClick, canStart, startGameMessages, h]
  · intro n h
    simp [lobbyStartClick, canStart, Nat.not_le.mpr h]

/-- Witness for C4 at player counts two and three. -/
theorem start_game_requires_min_players_witness :
    ((2 : Nat) < minPlayers ∧ lobbyStartClick 2 = [])
    ∧ (minPlayers ≤ 3 ∧ ClientMsg.START_GAME ∈ lobbyStartClick 3) :=
  ⟨⟨by decide, start_game_requires_min_players.2 2 (by decide)⟩,
   ⟨by decide, (start_game_requires_min_players.1 3).mpr (by decide)⟩⟩

/-- Claim C5: a Room-not-found ERROR makes the player client drop its saved
session and return to JOIN, after which its close handler schedules no rejoin;
a Room-not-found or invalid-token ERROR makes the organizer clear its stored
room code and return to PROMPT, after which its close handler schedules no
reconnect. -/
theorem dead_room_error_stops_reconnection :
    (∀ c : PlayerClient,
        (playerHandleMessage (.ERROR "Room not found") c).savedSession = false
        ∧ (playerHandleMessage (.ERROR "Room not found") c).state = .JOIN
        ∧ (playerOnClose (playerHandleMessage (.ERROR "Room not found") c)).2 = false)
    ∧ (∀ (c : OrganizerClient) (m : String),
        m = "Room not found" ∨ m = "Invalid organizer token" →
        (orgHandleMessage (.ERROR m) c).roomCode = ""
        ∧ (orgHandleMessage (.ERROR m) c).state = .PROMPT
        ∧ orgCloseSchedulesReconnect (orgHandleMessage (.ERROR m) c) = false) := by
  constructor
  · intro c
    refine ⟨by simp [playerHandleMessage], by simp [playerHandleMessage], ?_⟩
    by_cases hk : c.kicked <;> simp [playerHandleMessage, playerOnClose, hk]
  · intro c m hm
    have h : (m = "Room not found" ∨ m = "Invalid organizer token") := hm
    refine ⟨by simp [orgHandleMessage, h], by simp [orgHandleMessage, h], ?_⟩
    simp [orgHandleMessage, h, orgCloseSchedulesReconnect]

/-- A concrete organizer client attached to a live room in the lobby. -/
def orgRoomClient : OrganizerClient :=
  { state := .ROOM, roomCode := "ZZZZ", playerCount := 4, players := [],
    currentPromptText := "", questionNumber := 0, totalQuestions := 5,
    timerSeconds := 30, timeRemaining := 30, votedCount := 0, roundResult := none,
    leaderboard := [], superlatives := [], roundHistory := [], selectedTarget := none,
    hasVoted := false, autoAdvance := true, autoCountdown := 0 }

/-- Witness for C5 at a concrete organizer client and the Room-not-found
message. -/
theorem dead_room_error_stops_reconnection_witness :
    (orgHandleMessage (.ERROR "Room not found") orgRoomClient).roomCode = ""
    ∧ (orgHandleMessage (.ERROR "Room not found") orgRoomClient).state = .PROMPT
    ∧ orgCloseSchedulesReconnect (orgHandleMessage (.ERROR "Room not found") orgRoomClient) = false :=
  dead_room_error_stops_reconnection.2 orgRoomClient "Room not found" (Or.inl rfl)

/-- Claim C6: after a KICKED notice the player client marks itself kicked,
returns to JOIN showing the replaced-by-another-device notice, and the
subsequent socket close schedules no rejoin. -/
theorem kicked_never_reconnects :
    ∀ c : PlayerClient,
      (playerHandleMessage .KICKED c).kicked = true
      ∧ (playerHandleMessage .KICKED c).state = .JOIN
      ∧ (playerHandleMessage .KICKED c).error = "You joined from another device"
      ∧ (playerOnClose (playerHandleMessage .KICKED c)).2 = false
      ∧ (playerOnClose (playerHandleMessage .KICKED c)).1.kicked = false := by
  intro c
  refine ⟨rfl, rfl, rfl, ?_, ?_⟩ <;> simp [playerHandleMessage, playerOnClose]

/-- Claim C7 (amended): on ROOM_RESET the player client clears every
game-progress hook, adopts exactly the roster carried by the message, moves to
LOBBY and changes nothing else; the organizer client only updates player count
and roster and returns to its room screen, its game-progress hooks having been
cleared by the preceding Play Again action. -/
theorem room_reset_clears_player_progress :
    (∀ (c : PlayerClient) (ps : List PlayerInfo),
        playerHandleMessage (.ROOM_RESET (some ps)) c =
          { c with questionNumber := 0, totalQuestions := 0, selectedTarget := none,
                   hasVoted := false, roundResult := none, leaderboard := [],
                   superlatives := [], myPredictionPoints := 0,
                   lobbyPlayers := ps, players := ps, state := .LOBBY })
    ∧ (∀ (c : OrganizerClient) (pc : Nat) (pls : Option (List PlayerInfo)),
        orgHandleMessage (.ROOM_RESET pc pls) c =
          { c with playerCount := pc, players := pls.getD [], state := .ROOM })
    ∧ (∀ c : OrganizerClient,
        orgPlayAgain c =
          { c with questionNumber := 0, leaderboard := [], superlatives := [],
                   roundHistory := [], roundResult := none, selectedTarget := none,
                   hasVoted := false, state := .PROMPT }) :=
  ⟨fun c ps => rfl, fun c pc pls => rfl, fun c => rfl⟩

/-- A concrete organizer client holding end-of-game state. -/
def orgEndedClient : OrganizerClient :=
  { state := .PODIUM, roomCode := "ZZZZ", playerCount := 2, players := [],
    currentPromptText := "", questionNumber := 5, totalQuestions := 5,
    timerSeconds := 30, timeRemaining := 0, votedCount := 0, roundResult := none,
    leaderboard := [⟨"Alex", "A", 7, 1, 0⟩], superlatives := [⟨"t", "Alex", "A", "d"⟩],
    roundHistory := [], selectedTarget := none, hasVoted := true,
    autoAdvance := true, autoCountdown := 0 }

/-- Claim C7, counterexample to the claim as stated: the organizer client is
one of the clients, yet its ROOM_RESET handler leaves the question number,
leaderboard and superlatives untouched instead of clearing them. -/
theorem room_reset_counterexample :
    (orgHandleMessage (.ROOM_RESET 2 (some [⟨"Alex", "A"⟩])) orgEndedClient).questionNumber = 5
    ∧ (orgHandleMessage (.ROOM_RESET 2 (some [⟨"Alex", "A"⟩])) orgEndedClient).leaderboard ≠ []
    ∧ (orgHandleMessage (.ROOM_RESET 2 (some [⟨"Alex", "A"⟩])) orgEndedClient).hasVoted = true := by
  refine ⟨rfl, by decide, rfl⟩

/-- Claim C9: the reveal-screen podium block is total: it always yields exactly
three display slots laid out second, first, third, with missing entries
rendered as empty slots — in particular an empty podium renders three empty
slots. -/
theorem podium_render_total :
    ∀ podium : List PodiumEntry,
      (renderPodiumSlots podium).length = 3
      ∧ renderPodiumSlots podium =
          [slotOf (podium.get? 1), slotOf (podium.get? 0), slotOf (podium.get? 2)]
      ∧ renderPodiumSlots ([] : List PodiumEntry) = [.empty, .empty, .empty] := by
  intro pod
  refine ⟨rfl, ?_, rfl⟩
  simp only [renderPodiumSlots]
  simp only [List.get?_eq_getElem?]
  rw [List.getElem?_take_of_lt (by norm_num), List.getElem?_take_of_lt (by norm_num),
      List.getElem?_take_of_lt (by norm_num)]

/- Helper lemmas about foldl max, for the addPrompt id bound. -/

/-- The seed is a lower bound of a max fold. -/
theorem foldl_max_init_le (l : List Nat) (a : Nat) : a ≤ l.foldl max a := by
  induction l generalizing a with
  | nil => exact Nat.le_refl a
  | cons x xs ih => exact Nat.le_trans (Nat.le_max_left a x) (ih (max a x))

/-- Every member is bounded by a max fold over the list. -/
theorem mem_le_foldl_max (l : List Nat) (a x : Nat) (hx : x ∈ l) : x ≤ l.foldl max a := by
  induction l generalizing a with
  | nil => cases hx
  | cons y ys ih =>
      cases hx with
      | head => exact Nat.le_trans (Nat.le_max_right a x) (foldl_max_init_le ys (max a x))
      | tail _ h => exact ih (max a y) h

/-- A max fold yields either the seed or a member of the list. -/
theorem foldl_max_eq_or_mem (l : List Nat) (a : Nat) :
    l.foldl max a = a ∨ l.foldl max a ∈ l := by
  induction l generalizing a with
  | nil => exact Or.inl rfl
  | cons x xs ih =>
      rcases ih (max a x) with h | h
      · rcases max_choice a x with hm | hm
        · exact Or.inl (by rw [List.foldl_cons, h, hm])
        · exact Or.inr (by rw [List.foldl_cons, h, hm]; exact List.mem_cons_self x xs)
      · exact Or.inr (List.mem_cons_of_mem x h)

/-- Claim C8 (amended): on packs with pairwise distinct prompt ids, saveEdit
keeps the id sequence and rewrites only the text of the matched prompt,
deletePrompt removes exactly the prompt with the given id provided the pack
keeps more than three prompts and is otherwise a no-op, and addPrompt appends a
prompt whose id is one greater than the maximum existing id — each operation
preserving the distinctness of the ids. -/
theorem review_edit_ops_preserve_ids :
    (∀ (pack : PromptPack) (eid : Option Nat) (t : String),
        promptIds (saveEdit eid t pack) = promptIds pack
        ∧ (∀ p ∈ (saveEdit eid t pack).prompts, some p.id ≠ eid → p ∈ pack.prompts)
        ∧ (strTrim t ≠ "" → ∀ p ∈ pack.prompts, some p.id = eid →
            ({ p with text := strTrim t } : Prompt) ∈ (saveEdit eid t pack).prompts)
        ∧ ((promptIds pack).Nodup → (promptIds (saveEdit eid t pack)).Nodup))
    ∧ (∀ (pack : PromptPack) (i : Nat), 3 < pack.prompts.length →
        (∀ p : Prompt, p ∈ (deletePrompt i pack).prompts ↔ p ∈ pack.prompts ∧ p.id ≠ i)
        ∧ ((promptIds pack).Nodup → (promptIds (deletePrompt i pack)).Nodup))
    ∧ (∀ (pack : PromptPack) (i : Nat), pack.prompts.length ≤ 3 →
        deletePrompt i pack = pack)
    ∧ (∀ (pack : PromptPack) (t : String), strTrim t ≠ "" →
        (addPrompt t pack).prompts = pack.prompts ++ [⟨maxPromptId pack + 1, strTrim t⟩]
        ∧ (∀ p ∈ pack.prompts, p.id < maxPromptId pack + 1)
        ∧ (pack.prompts ≠ [] → maxPromptId pack ∈ promptIds pack)
        ∧ ((promptIds pack).Nodup → (promptIds (addPrompt t pack)).Nodup)) := by
  refine ⟨?_, ?_, ?_, ?_⟩
  · intro pack eid t
    by_cases ht : strTrim t = ""
    · refine ⟨by simp [saveEdit, ht], ?_, ?_, ?_⟩
      · intro p hp _
        simpa [saveEdit, ht] using hp
      · intro hne
        exact absurd ht hne
      · intro hnd
        simpa [saveEdit, ht] using hnd
    · refine ⟨?_, ?_, ?_, ?_⟩
      · simp only [saveEdit, if_neg ht, promptIds, List.map_map]
        apply List.map_congr_left
        intro p hp
        by_cases hid : some p.id = eid <;> simp [Function.comp, hid]
      · intro p hp hne
        simp only [saveEdit, if_neg ht, List.mem_map] at hp
        rcases hp with ⟨q, hq, hpq⟩
        by_cases hid : some q.id = eid
        · rw [if_pos hid] at hpq
          subst hpq
          exact absurd hid hne
        · rw [if_neg hid] at hpq
          exact hpq ▸ hq
      · intro _ p hp hid
        simp only [saveEdit, if_neg ht, List.mem_map]
        exact ⟨p, hp, by rw [if_pos hid]⟩
      · intro hnd
        have hids : promptIds (saveEdit eid t pack) = promptIds pack := by
          simp only [saveEdit, if_neg ht, promptIds, List.map_map]
          apply List.map_congr_left
          intro p hp
          by_cases hid : some p.id = eid <;> simp [Function.comp, hid]
        rw [hids]
        exact hnd
  · intro pack i hlen
    have hg : ¬pack.prompts.length ≤ 3 := Nat.not_le.mpr hlen
    constructor
    · intro p
      simp [deletePrompt, hg, List.mem_filter]
    · intro hnd
      have hsub : (deletePrompt i pack).prompts.Sublist pack.prompts := by
        simp only [deletePrompt, if_neg hg]
        exact List.filter_sublist pack.prompts
      exact List.Nodup.sublist (List.Sublist.map Prompt.id hsub) hnd
  · intro pack i hle
    simp [deletePrompt, hle]
  · intro pack t ht
    refine ⟨by simp [addPrompt, ht], ?_, ?_, ?_⟩
    · intro p hp
      have : p.id ≤ maxPromptId pack :=
        mem_le_foldl_max (pack.prompts.map Prompt.id) 0 p.id (List.mem_map_of_mem Prompt.id hp)
      omega
    · intro hne
      rcases foldl_max_eq_or_mem (pack.prompts.map Prompt.id) 0 with h0 | hmem
      · cases hp : pack.prompts with
        | nil => exact absurd hp hne
        | cons q qs =>
            have hq : q.id ∈ pack.prompts.map Prompt.id := by
              rw [hp]; exact List.mem_map_of_mem Prompt.id (List.mem_cons_self q qs)
            have hqle : q.id ≤ maxPromptId pack :=
              mem_le_foldl_max (pack.prompts.map Prompt.id) 0 q.id hq
            have : maxPromptId pack = 0 := h0
            have hq0 : q.id = 0 := by omega
            unfold promptIds
            rw [maxPromptId, h0, ← hq0]
            exact hq
      · exact hmem
    · intro hnd
      have hids : promptIds (addPrompt t pack) =
          promptIds pack ++ [maxPromptId pack + 1] := by
        simp [addPrompt, ht, promptIds]
      rw [hids, List.nodup_append]
      refine ⟨hnd, List.nodup_singleton _, ?_⟩
      intro x hx hx1
      have hxle : x ≤ maxPromptId pack :=
        mem_le_foldl_max (pack.prompts.map Prompt.id) 0 x hx
      have : x = maxPromptId pack + 1 := by
        simpa using hx1
      omega

/-- A concrete three-prompt pack. -/
def pack3 : PromptPack := ⟨"pack", [⟨1, "a"⟩, ⟨2, "b"⟩, ⟨3, "c"⟩]⟩

/-- Claim C8, counterexample to the claim as stated: on a pack of exactly three
prompts with distinct ids, deletePrompt leaves the pack unchanged, so the
prompt with the given id is not removed. -/
theorem deletePrompt_guard_counterexample :
    (promptIds pack3).Nodup
    ∧ deletePrompt 1 pack3 = pack3
    ∧ (⟨1, "a"⟩ : Prompt) ∈ (deletePrompt 1 pack3).prompts := by
  refine ⟨by decide, rfl, by decide⟩

/-- A concrete four-prompt pack with distinct ids. -/
def pack4 : PromptPack := ⟨"pack", [⟨1, "a"⟩, ⟨2, "b"⟩, ⟨3, "c"⟩, ⟨4, "d"⟩]⟩

/-- Witness for C8 at a concrete four-prompt pack. -/
theorem review_edit_ops_witness :
    ((3 : Nat) < pack4.prompts.length
      ∧ ((⟨2, "b"⟩ : Prompt) ∈ (deletePrompt 2 pack4).prompts ↔
          (⟨2, "b"⟩ : Prompt) ∈ pack4.prompts ∧ (2 : Nat) ≠ 2))
    ∧ (strTrim "x" ≠ ""
      ∧ (addPrompt "x" pack4).prompts = pack4.prompts ++ [⟨maxPromptId pack4 + 1, strTrim "x"⟩])
    ∧ ((promptIds pack4).Nodup → (promptIds (saveEdit (some 2) "y" pack4)).Nodup) :=
  ⟨⟨by decide, (review_edit_ops_preserve_ids.2.1 pack4 2 (by decide)).1 ⟨2, "b"⟩⟩,
   ⟨by decide, (review_edit_ops_preserve_ids.2.2.2 pack4 "x" (by decide)).1⟩,
   (review_edit_ops_preserve_ids.1 pack4 (some 2) "y").2.2.2⟩

/- Auto-advance proofs (C10). -/

/-- The auto-advance invariant: within one armed countdown, the automatic sends
plus the still-pending one (when the interval is live) never exceed one. -/
def autoInv (s : AutoState) : Prop :=
  s.autoSent + (if s.intervalActive then 1 else 0) ≤ 1

/-- Every event other than a re-arming effect run preserves the invariant. -/
theorem autoStep_preserves_inv (e : AutoEvent) (s : AutoState)
    (he : e ≠ .effectOn) (h : autoInv s) : autoInv (autoStep e s) := by
  cases e with
  | tick =>
      simp only [autoStep, autoInv] at h ⊢
      split_ifs at h ⊢ <;> simp_all
  | effectOff =>
      simp [autoStep, autoInv] at h ⊢
      split_ifs at h <;> omega
  | effectOn => exact absurd rfl he
  | manualNext =>
      simp [autoStep, autoInv] at h ⊢
      split_ifs at h <;> omega

/-- The invariant holds along any event sequence free of re-arming runs. -/
theorem runAuto_inv (es : List AutoEvent) (hno : AutoEvent.effectOn ∉ es) :
    autoInv (runAuto es) := by
  have main : ∀ (l : List AutoEvent) (s : AutoState), AutoEvent.effectOn ∉ l →
      autoInv s → autoInv (l.foldl (fun s e => autoStep e s) s) := by
    intro l
    induction l with
    | nil => intro s _ h; exact h
    | cons e rest ih =>
        intro s hno h
        simp only [List.foldl_cons]
        refine ih _ (fun hmem => hno (List.mem_cons_of_mem _ hmem)) ?_
        exact autoStep_preserves_inv e s (fun he => hno (he ▸ List.mem_cons_self e rest)) h
  exact main es revealStart hno (by simp [autoInv, revealStart])

/-- Claim C10 (amended): within one REVEAL, as long as auto-advance is not
re-armed by a disable-then-enable toggle, at most one automatic NEXT_QUESTION
is sent; the countdown reaching one clears the interval and performs the single
automatic send, disarming and a manual Next press clear the interval without an
automatic send, and an undisturbed seven-tick countdown sends exactly once. -/
theorem auto_advance_single_shot :
    (∀ es : List AutoEvent, AutoEvent.effectOn ∉ es → (runAuto es).autoSent ≤ 1)
    ∧ (∀ s : AutoState, s.intervalActive = true → s.countdown ≤ 1 →
        (autoStep .tick s).intervalActive = false
        ∧ (autoStep .tick s).autoSent = s.autoSent + 1
        ∧ (autoStep .tick s).countdown = 0)
    ∧ (∀ s : AutoState, (autoStep .effectOff s).intervalActive = false
        ∧ (autoStep .effectOff s).autoSent = s.autoSent)
    ∧ (∀ s : AutoState, (autoStep .manualNext s).intervalActive = false
        ∧ (autoStep .manualNext s).autoSent = s.autoSent
        ∧ (autoStep .manualNext s).manualSent = s.manualSent + 1)
    ∧ runAuto (List.replicate 7 .tick) = ⟨0, false, 1, 0⟩ := by
  refine ⟨?_, ?_, ?_, ?_, by decide⟩
  · intro es hno
    have h := runAuto_inv es hno
    simp only [autoInv] at h
    omega
  · intro s hact hcd
    simp [autoStep, hact, hcd]
  · intro s
    simp [autoStep]
  · intro s
    simp [autoStep]

/-- Claim C10, counterexample to the claim as stated: toggling auto-advance off
and on during the same REVEAL re-arms the countdown, so that single REVEAL
produces two automatic NEXT_QUESTION sends. -/
theorem auto_advance_counterexample :
    (runAuto (List.replicate 7 .tick ++ [.effectOff, .effectOn] ++
        List.replicate 7 .tick)).autoSent = 2 := by
  decide

/-- Witness for C10 on a concrete toggle-free event sequence. -/
theorem auto_advance_single_shot_witness :
    (AutoEvent.effectOn ∉ ([.tick, .tick, .manualNext, .tick] : List AutoEvent)
      ∧ (runAuto [.tick, .tick, .manualNext, .tick]).autoSent ≤ 1)
    ∧ (revealStart.intervalActive = true ∧ Nat.le 1 1
      ∧ (autoStep .tick ⟨1, true, 0, 0⟩).intervalActive = false
      ∧ (autoStep .tick ⟨1, true, 0, 0⟩).autoSent = 1) :=
  ⟨⟨by decide, auto_advance_single_shot.1 [.tick, .tick, .manualNext, .tick] (by decide)⟩,
   ⟨rfl, Nat.le_refl 1,
    (auto_advance_single_shot.2.1 ⟨1, true, 0, 0⟩ rfl (Nat.le_refl 1)).1,
    (auto_advance_single_shot.2.1 ⟨1, true, 0, 0⟩ rfl (Nat.le_refl 1)).2.1⟩⟩

/- Voting-engine proofs (C2). -/

/-- The rank walk keeps the vote counts of its input, in order. -/
theorem ranksGo_map_vote_count (l : List Tally) :
    ∀ (r : Nat) (prev : Option Nat),
      (ranksGo r prev l).map PodiumEntry.vote_count = l.map Prod.snd := by
  induction l with
  | nil => intro r prev; rfl
  | cons t rest ih => intro r prev; simp [ranksGo, ih]

/-- The dense-rank invariant of the rank walk: on a descending-sorted input
bounded by the previous count, every produced entry's rank is the starting rank
plus the number of distinct strictly larger counts in the input, plus one more
unless the previous count reappears at the head of the input. -/
theorem ranksGo_rank_spec (l : List Tally) :
    ∀ (r : Nat) (prev : Option Nat),
      List.Sorted tallyRel l →
      (∀ p : Nat, prev = some p → ∀ x ∈ l, x.2 ≤ p) →
      ∀ e ∈ ranksGo r prev l,
        e.rank = r
          + ((l.map Prod.snd).dedup.filter (fun d => decide (e.vote_count < d))).length
          + (if ∃ x ∈ l, prev = some x.2 then 0 else 1) := by
  induction l with
  | nil =>
      intro r prev _ _ e he
      cases he
  | cons t rest ih =>
      intro r prev hs hb e he
      have hrest_le : ∀ b ∈ rest, b.2 ≤ t.2 := fun b hbm => (List.sorted_cons.mp hs).1 b hbm
      have hs_rest : List.Sorted tallyRel rest := (List.sorted_cons.mp hs).2
      have hhit : (if ∃ x ∈ t :: rest, prev = some x.2 then (0 : Nat) else 1)
          = (if prev = some t.2 then (0 : Nat) else 1) := by
        by_cases hp : prev = some t.2
        · rw [if_pos hp, if_pos ⟨t, List.mem_cons_self t rest, hp⟩]
        · rw [if_neg hp, if_neg ?_]
          rintro ⟨x, hx, hpx⟩
          rcases List.mem_cons.mp hx with hxt | hxr
          · exact hp (hxt ▸ hpx)
          · cases hprev : prev with
            | none => rw [hprev] at hpx; exact Option.noConfusion hpx
            | some p =>
                rw [hprev] at hpx
                have hpeq : p = x.2 := Option.some.inj hpx
                have hple : t.2 ≤ p := hb p hprev t (List.mem_cons_self t rest)
                have hx2 : x.2 = t.2 :=
                  Nat.le_antisymm (hrest_le x hxr) (hpeq ▸ hple)
                exact hp (by rw [hprev, hpeq, hx2])
      have hD0 : ∀ c : Nat, t.2 ≤ c →
          (((t :: rest).map Prod.snd).dedup.filter (fun d => decide (c < d))).length = 0 := by
        intro c hc
        apply List.length_eq_zero.mpr
        apply List.filter_eq_nil_iff.mpr
        intro d hd
        have hdm : d ∈ (t :: rest).map Prod.snd := List.mem_dedup.mp hd
        have hdle : d ≤ t.2 := by
          rcases List.mem_map.mp hdm with ⟨x, hx, hdx⟩
          rcases List.mem_cons.mp hx with h1 | h2
          · rw [← hdx, h1]
          · rw [← hdx]; exact hrest_le x h2
        simp only [decide_eq_true_eq]
        omega
      simp only [ranksGo] at he
      rcases List.mem_cons.mp he with rfl | he2
      · rw [hhit]
        simp only [PodiumEntry.vote_count, PodiumEntry.rank]
        rw [hD0 t.2 (Nat.le_refl t.2)]
        by_cases hp : prev = some t.2 <;> simp [hp]
      · have hbound : ∀ p : Nat, (some t.2 : Option Nat) = some p → ∀ x ∈ rest, x.2 ≤ p := by
          intro p hp x hx
          have hpt : p = t.2 := (Option.some.inj hp).symm
          rw [hpt]
          exact hrest_le x hx
        have hIH := ih (if prev = some t.2 then r else r + 1) (some t.2) hs_rest hbound e he2
        have hvc : e.vote_count ∈ rest.map Prod.snd := by
          rw [← ranksGo_map_vote_count rest (if prev = some t.2 then r else r + 1) (some t.2)]
          exact List.mem_map_of_mem PodiumEntry.vote_count he2
        have hvle : e.vote_count ≤ t.2 := by
          rcases List.mem_map.mp hvc with ⟨x, hx, hx2⟩
          rw [← hx2]
          exact hrest_le x hx
        have hcond : (∃ x ∈ rest, (some t.2 : Option Nat) = some x.2) ↔
            t.2 ∈ rest.map Prod.snd := by
          constructor
          · rintro ⟨x, hx, hpx⟩
            exact List.mem_map.mpr ⟨x, hx, (Option.some.inj hpx).symm⟩
          · intro hm
            rcases List.mem_map.mp hm with ⟨x, hx, hx2⟩
            exact ⟨x, hx, by rw [hx2]⟩
        have hkey : e.rank = (if prev = some t.2 then r else r + 1)
            + (((t :: rest).map Prod.snd).dedup.filter
                (fun d => decide (e.vote_count < d))).length := by
          by_cases hmem : t.2 ∈ rest.map Prod.snd
          · have hded : ((t :: rest).map Prod.snd).dedup = (rest.map Prod.snd).dedup := by
              rw [List.map_cons]
              exact List.dedup_cons_of_mem hmem
            rw [hded]
            rw [hIH, if_pos (hcond.mpr hmem)]
            omega
          · have hded : ((t :: rest).map Prod.snd).dedup = t.2 :: (rest.map Prod.snd).dedup := by
              rw [List.map_cons]
              exact List.dedup_cons_of_not_mem hmem
            have hne : e.vote_count ≠ t.2 := by
              intro hEq
              exact hmem (hEq ▸ hvc)
            have hlt : e.vote_count < t.2 := Nat.lt_of_le_of_ne hvle hne
            have hfil : List.filter (fun d => decide (e.vote_count < d))
                (t.2 :: (rest.map Prod.snd).dedup)
                = t.2 :: List.filter (fun d => decide (e.vote_count < d))
                    (rest.map Prod.snd).dedup := by
              simp [List.filter_cons, hlt]
            rw [hded, hfil, hIH, if_neg (fun hc => hmem (hcond.mp hc)), List.length_cons]
            omega
        rw [hkey, hhit]
        by_cases hp : prev = some t.2
        · simp [hp]
        · simp [hp]
          omega

/-- Claim C2: every podium entry received at least one vote and carries the
dense rank — one more than the number of distinct strictly larger vote counts
on the podium — so ties share a rank and the next distinct count takes the next
rank; equal counts always share a rank; and a round with no votes yields an
empty podium and no majority winner. -/
theorem podium_ranked_dense (players : List PlayerInfo) (votes : List Vote) :
    (∀ e ∈ buildPodium players votes,
        1 ≤ e.vote_count
        ∧ e.rank = specRank ((buildPodium players votes).map PodiumEntry.vote_count)
            e.vote_count)
    ∧ (∀ e1 ∈ buildPodium players votes, ∀ e2 ∈ buildPodium players votes,
        e1.vote_count = e2.vote_count → e1.rank = e2.rank)
    ∧ (votes = [] → buildPodium players votes = [] ∧ majorityWinner players votes = none) := by
  have hsorted : List.Sorted tallyRel (sortByCount (recipients players votes)) :=
    List.sorted_insertionSort tallyRel (recipients players votes)
  have hcounts : (buildPodium players votes).map PodiumEntry.vote_count
      = (sortByCount (recipients players votes)).map Prod.snd :=
    ranksGo_map_vote_count (sortByCount (recipients players votes)) 0 none
  have hmain : ∀ e ∈ buildPodium players votes,
      1 ≤ e.vote_count
      ∧ e.rank = specRank ((buildPodium players votes).map PodiumEntry.vote_count)
          e.vote_count := by
    intro e he
    constructor
    · have hvc : e.vote_count ∈ (sortByCount (recipients players votes)).map Prod.snd := by
        rw [← hcounts]
        exact List.mem_map_of_mem PodiumEntry.vote_count he
      rcases List.mem_map.mp hvc with ⟨x, hx, hx2⟩
      have hxr : x ∈ recipients players votes := by
        have := hx
        simp only [sortByCount] at this
        exact (List.mem_insertionSort tallyRel).mp this
      have hpos := (List.mem_filter.mp hxr).2
      rw [← hx2]
      simpa using hpos
    · have h := ranksGo_rank_spec (sortByCount (recipients players votes)) 0 none hsorted
        (by intro p hp; cases hp) e he
      rw [if_neg ?nowit] at h
      case nowit =>
        rintro ⟨x, hx, hpx⟩
        exact Option.noConfusion hpx
      rw [specRank, hcounts]
      omega
  refine ⟨hmain, ?_, ?_⟩
  · intro e1 he1 e2 he2 hEq
    rw [(hmain e1 he1).2, (hmain e2 he2).2, hEq]
  · intro hv
    subst hv
    have hrec : recipients players ([] : List Vote) = [] := by
      apply List.filter_eq_nil_iff.mpr
      intro t ht
      rcases List.mem_map.mp ht with ⟨p, hp, hpt⟩
      rw [← hpt]
      simp [countVotes]
    constructor
    · simp [buildPodium, hrec, sortByCount, List.insertionSort, ranksGo]
    · simp [majorityWinner, hrec, sortByCount, List.insertionSort]

/-- The spec scenario room: players Alex, Jordan, Sam in join order. -/
def scenarioPlayers : List PlayerInfo := [⟨"Alex", "A"⟩, ⟨"Jordan", "J"⟩, ⟨"Sam", "S"⟩]

/-- The spec scenario votes: Alex and Jordan vote Jordan, Sam votes Alex. -/
def scenarioVotes : List Vote := [⟨"Alex", "Jordan"⟩, ⟨"Jordan", "Jordan"⟩, ⟨"Sam", "Alex"⟩]

/-- Witness for C2 on the spec scenario: Jordan tops the podium with two votes
at rank one, and the no-vote round gives an empty podium with no winner. -/
theorem podium_ranked_dense_witness :
    (1 ≤ (⟨"Jordan", "J", 2, 1⟩ : PodiumEntry).vote_count
      ∧ (⟨"Jordan", "J", 2, 1⟩ : PodiumEntry).rank
          = specRank ((buildPodium scenarioPlayers scenarioVotes).map PodiumEntry.vote_count)
              (⟨"Jordan", "J", 2, 1⟩ : PodiumEntry).vote_count)
    ∧ (buildPodium scenarioPlayers [] = [] ∧ majorityWinner scenarioPlayers [] = none) :=
  ⟨(podium_ranked_dense scenarioPlayers scenarioVotes).1 ⟨"Jordan", "J", 2, 1⟩ (by decide),
   (podium_ranked_dense scenarioPlayers []).2.2 rfl⟩

end WhosMost
